import Mathlib

/-!
Verification of the `Cacher` memoizing-closure wrapper from
`src/functional_language_features/closures/src/main.rs`.

The Rust struct is

  struct Cacher<T> where T: Fn(u32) -> u32 {
      calculation: T,
      value: Option<u32>,
  }

with operations `Cacher::new` (lines 272-277) and `Cacher::value`
(lines 288-297).  Keys and values are `u32`; the `Cacher` itself performs
no arithmetic on them (the wrapped closure is opaque), so `u32` values are
carried as `Nat` here.  The wrapped closure is modelled as a pure function
`Nat → Nat`; the Rust method mutates `self`, which becomes explicit state
passing (the method returns the result together with the updated state).
-/

/-- Shallow embedding of the Rust struct `Cacher<T>` with `T : Fn(u32) -> u32`
(main.rs lines 237-256).  The Rust `calculation` field holds the wrapped
closure; the Rust `value` field is `Option<u32>`, `None` before the closure
has been run.  (The Rust method `Cacher::value` is embedded below as
`Cacher.value'`, since in Lean the field projection already occupies the
name `Cacher.value`.) -/
structure Cacher where
  calculation : Nat → Nat
  value : Option Nat

/-- Embedding of `Cacher::new` (main.rs lines 272-277): stores the closure in
`calculation` and `None` in `value`; the body applies the closure nowhere. -/
def Cacher.new (calculation : Nat → Nat) : Cacher :=
  { calculation := calculation, value := none }

/-- Embedding of the method `Cacher::value` (main.rs lines 288-297).  The
Rust method takes `&mut self` and returns `u32`; here it returns the result
paired with the updated state.  Source body: `match self.value { Some(v) =>
v, None => { let v = (self.calculation)(arg); self.value = Some(v); v } }`. -/
def Cacher.value' (self : Cacher) (arg : Nat) : Nat × Cacher :=
  match self.value with
  | some v => (v, self)
  | none =>
    let v := self.calculation arg
    (v, { self with value := some v })

/-- Instrumented embedding of `Cacher::value`: identical control flow to
`Cacher.value'`, additionally reporting how many times the wrapped closure
was applied during this call (`1` on the `None` branch, `0` on the `Some`
branch).  This is the counting wrapper the spec's testable properties ask
for. -/
def Cacher.valueInstr (self : Cacher) (arg : Nat) : Nat × Cacher × Nat :=
  match self.value with
  | some v => (v, self, 0)
  | none =>
    let v := self.calculation arg
    (v, { self with value := some v }, 1)

/-- Run a sequence of `Cacher::value` calls with the given arguments,
collecting the returned values, the final state, and the total number of
invocations of the wrapped closure over the whole sequence. -/
def runCalls (c : Cacher) (args : List Nat) : List Nat × Cacher × Nat :=
  match args with
  | [] => ([], c, 0)
  | a :: rest =>
    let s := c.valueInstr a
    let t := runCalls s.2.1 rest
    (s.1 :: t.1, t.2.1, s.2.2 + t.2.2)

/-- Variant of `Cacher` whose wrapped closure may fail, modelling a Rust
closure that panics on some invocations.  A panicking `Fn` closure can
behave differently across invocations only through interior mutability
(e.g. a counter it reads), so the closure here additionally receives the
index of the current invocation attempt.  Failure is modelled as
`Except.error`; `Except.ok` is a normal return. -/
structure CacherF where
  calculation : Nat → Nat → Except String Nat
  value : Option Nat

/-- Embedding of `Cacher::value` under Rust unwind semantics (main.rs lines
288-297): if `(self.calculation)(arg)` on line 292 panics, the write
`self.value = Some(v)` on line 293 never executes, so the state is returned
unchanged and the error propagates to the caller; on a normal return the
result is stored and returned as in `Cacher.value'`.  The third component
counts invocations of the closure during this call, as in
`Cacher.valueInstr`. -/
def CacherF.valueF (self : CacherF) (attempt : Nat) (arg : Nat) :
    Except String Nat × CacherF × Nat :=
  match self.value with
  | some v => (Except.ok v, self, 0)
  | none =>
    match self.calculation attempt arg with
    | Except.error e => (Except.error e, self, 1)
    | Except.ok v => (Except.ok v, { self with value := some v }, 1)

/-- A concrete fallible closure: panics (fails) on its first invocation and
returns `arg + 1` on every later one. -/
def flaky : Nat → Nat → Except String Nat :=
  fun attempt arg => if attempt = 0 then Except.error "boom" else Except.ok (arg + 1)

/-- The instrumented call agrees with the plain embedding of `Cacher::value`
on the returned value and the updated state. -/
theorem valueInstr_agrees (c : Cacher) (arg : Nat) :
    ((c.valueInstr arg).1, (c.valueInstr arg).2.1) = c.value' arg := by
  cases h : c.value <;> simp [Cacher.valueInstr, Cacher.value', h]

/-- A cacher whose `value` field is already `some v` answers every call of a
sequence with `v`, never changes state, and never applies the closure. -/
theorem runCalls_some (f : Nat → Nat) (v : Nat) (args : List Nat) :
    runCalls ⟨f, some v⟩ args = (List.replicate args.length v, ⟨f, some v⟩, 0) := by
  induction args with
  | nil => rfl
  | cons a rest ih => simp [runCalls, Cacher.valueInstr, ih, List.replicate]

/-- C1: at-most-once invocation per key — for any closure `f`, key `k` and
`N ≥ 1`, a fresh `Cacher` answering `N` calls of `Cacher::value` with the
same argument `k` invokes the wrapped closure exactly once, not `N` times. -/
theorem at_most_once_per_key (f : Nat → Nat) (k N : Nat) (h : 1 ≤ N) :
    (runCalls (Cacher.new f) (List.replicate N k)).2.2 = 1 := by
  obtain ⟨n, rfl⟩ : ∃ n, N = n + 1 := ⟨N - 1, by omega⟩
  simp [List.replicate_succ, runCalls, Cacher.new, Cacher.valueInstr, runCalls_some]

/-- Witness for C1 at `f = fun n => n + 1`, `k = 5`, `N = 3`. -/
theorem at_most_once_per_key_witness :
    1 ≤ 3 ∧ (runCalls (Cacher.new (fun n => n + 1)) (List.replicate 3 5)).2.2 = 1 :=
  ⟨by decide, at_most_once_per_key (fun n => n + 1) 5 3 (by decide)⟩

/-- C2 counterexample: with `f = fun n => n + 1`, after `value(5)` the call
`value(7)` returns `6`, not `f 7 = 8` — so a call does not return `f(k)`
regardless of which other keys were looked up before. -/
theorem value_after_other_key_stale :
    ((((Cacher.new (fun n => n + 1)).value' 5).2).value' 7).1 = 6 ∧
    ¬ ((((Cacher.new (fun n => n + 1)).value' 5).2).value' 7).1 = 8 := by
  decide

/-- C2 amended: a call to `Cacher::value` with argument `k` returns exactly
`f k` provided every lookup so far also used the argument `k` — on a fresh
cacher, a sequence of `n` calls all with key `k` returns `f k` every time. -/
theorem value_correct_single_key (f : Nat → Nat) (k n : Nat) :
    (runCalls (Cacher.new f) (List.replicate n k)).1 = List.replicate n (f k) := by
  cases n with
  | zero => rfl
  | succ m =>
    simp [List.replicate_succ, runCalls, Cacher.new, Cacher.valueInstr, runCalls_some]

/-- C3: evaluation at the claim's own scenario — with closure
`fun n => n + 1`, `value(5)` returns `6`, but the following `value(7)`
returns `6` again (not `8`) and the closure is invoked once in total (not
twice): keys are not memoized independently. -/
theorem independence_fails_at_5_7 :
    (runCalls (Cacher.new (fun n => n + 1)) [5, 7]).1 = [6, 6] ∧
    (runCalls (Cacher.new (fun n => n + 1)) [5, 7]).2.2 = 1 := by
  decide

/-- C4: single-slot behavior — for every closure `f` and keys `k1 ≠ k2`, on
a fresh cacher the call `value(k1)` followed by `value(k2)` returns the
stale first result `f k1` both times, with exactly one invocation of the
closure in total. -/
theorem single_slot_stale (f : Nat → Nat) (k1 k2 : Nat) (h : k2 ≠ k1) :
    (runCalls (Cacher.new f) [k1, k2]).1 = [f k1, f k1] ∧
    (runCalls (Cacher.new f) [k1, k2]).2.2 = 1 := by
  simp [runCalls, Cacher.new, Cacher.valueInstr]

/-- Witness for C4 at `f = fun n => n + 1`, `k1 = 5`, `k2 = 7`. -/
theorem single_slot_stale_witness :
    (7 : Nat) ≠ 5 ∧
    ((runCalls (Cacher.new (fun n => n + 1)) [5, 7]).1
        = [(fun n => n + 1) 5, (fun n => n + 1) 5] ∧
      (runCalls (Cacher.new (fun n => n + 1)) [5, 7]).2.2 = 1) :=
  ⟨by decide, single_slot_stale (fun n => n + 1) 5 7 (by decide)⟩

/-- C5: cached-entry fast path — whenever the `value` field is `some v`, a
call of `Cacher::value` with any argument returns the stored `v`, leaves the
state unchanged, and performs zero invocations of the wrapped closure. -/
theorem cached_fast_path (f : Nat → Nat) (v arg : Nat) :
    (Cacher.mk f (some v)).valueInstr arg = (v, Cacher.mk f (some v), 0) :=
  rfl

/-- C6: idempotence — from any state of the cacher, two consecutive
`Cacher::value` calls with the same key `k` return equal values and the
second call performs zero invocations of the wrapped closure. -/
theorem value_idempotent (f : Nat → Nat) (w : Option Nat) (k : Nat) :
    ((Cacher.mk f w).value' k).1 = (((Cacher.mk f w).value' k).2.value' k).1 ∧
    (((Cacher.mk f w).valueInstr k).2.1.valueInstr k).2.2 = 0 := by
  cases w <;> simp [Cacher.value', Cacher.valueInstr]

/-- C7: no eviction — once the `value` field holds `some v`, a single call
with any argument leaves it at `some v`, and so does any further sequence of
calls: the field never returns to `none` and never changes to a different
`some`. -/
theorem no_eviction (f : Nat → Nat) (v arg : Nat) (args : List Nat) :
    ((Cacher.mk f (some v)).value' arg).2.value = some v ∧
    (runCalls (Cacher.mk f (some v)) args).2.1.value = some v := by
  refine ⟨rfl, ?_⟩
  rw [show Cacher.mk f (some v) = (⟨f, some v⟩ : Cacher) from rfl, runCalls_some]

/-- C8: failure does not poison the cache — if the wrapped closure fails on
invocation attempt 0 for key `k` and succeeds with `v` on attempt 1, then
the first `Cacher::value` call propagates the failure unchanged and leaves
the state unchanged (`value` still `none`), and the second call with the
same `k` re-invokes the closure and returns the attempt-1 result, for
exactly two invocations in total. -/
theorem failure_not_cached (g : Nat → Nat → Except String Nat) (k : Nat)
    (e : String) (v : Nat)
    (h1 : g 0 k = Except.error e) (h2 : g 1 k = Except.ok v) :
    (CacherF.mk g none).valueF 0 k = (Except.error e, CacherF.mk g none, 1) ∧
    ((CacherF.mk g none).valueF 0 k).2.1.valueF 1 k
      = (Except.ok v, CacherF.mk g (some v), 1) := by
  constructor <;> simp [CacherF.valueF, h1, h2]

/-- Witness for C8 at the concrete flaky closure and `k = 5`. -/
theorem failure_not_cached_witness :
    flaky 0 5 = Except.error "boom" ∧ flaky 1 5 = Except.ok 6 ∧
    ((CacherF.mk flaky none).valueF 0 5
        = (Except.error "boom", CacherF.mk flaky none, 1) ∧
      ((CacherF.mk flaky none).valueF 0 5).2.1.valueF 1 5
        = (Except.ok 6, CacherF.mk flaky (some 6), 1)) :=
  ⟨rfl, rfl, failure_not_cached flaky 5 "boom" 6 rfl rfl⟩

/-- C9: construction — `Cacher::new f` yields a cacher whose `value` field
is `none` (empty entry collection) and whose `calculation` field is the
supplied closure `f` stored unapplied; the first subsequent lookup performs
one invocation, showing nothing was computed at construction time. -/
theorem new_empty_no_invocation (f : Nat → Nat) (k : Nat) :
    (Cacher.new f).value = none ∧ (Cacher.new f).calculation = f ∧
    ((Cacher.new f).valueInstr k).2.2 = 1 :=
  ⟨rfl, rfl, rfl⟩

/-- C10: frame property — a call of `Cacher::value` from any state mutates
at most the `value` field: the `calculation` field is unchanged. -/
theorem frame_calculation (f : Nat → Nat) (w : Option Nat) (arg : Nat) :
    ((Cacher.mk f w).value' arg).2.calculation = f := by
  cases w <;> rfl
